import Mathlib

/-!
Verification of the Super Singularity MCP server (`server.py`).

The server's logic is pure JSON-payload assembly around network calls.  We
embed it shallowly:

* JSON values are the inductive `JSON`; Python dicts become insertion-ordered
  association lists `List (String × JSON)` with Python assignment (`setKey`)
  and the double-splat shallow merge (`dictMerge`).
* The network is an oracle `Env` mapping (method, endpoint, body) to an
  `HttpOutcome` (an HTTP response with status, raw text and parsed JSON body,
  or a transport failure).  Each tool returns its result value together with
  the list of API requests it issued, so "no network call occurs" is the
  request log being empty.
* `json.dumps` serialization of results, timestamps, and the media/upload
  side effects (ElevenLabs, Pillow, Azure blob) are outside the claims; for
  the image tools we model the provider request payload that
  `generate_image_with_azure_openai` assembles, which is what the claims
  about sizes and aspect ratios are about.
-/

inductive JSON where
  | null : JSON
  | bool : Bool → JSON
  | num : Int → JSON
  | str : String → JSON
  | arr : List JSON → JSON
  | obj : List (String × JSON) → JSON

/-- First-match lookup in an insertion-ordered association list, the
reading side of a Python dict. -/
def lookupKV : List (String × JSON) → String → Option JSON
  | [], _ => none
  | p :: rest, k => if p.1 = k then some p.2 else lookupKV rest k

/-- Python dict assignment `d[k] = v`: overwrite in place if the key exists,
append otherwise. -/
def setKey : List (String × JSON) → String → JSON → List (String × JSON)
  | [], k, v => [(k, v)]
  | p :: rest, k, v => if p.1 = k then (p.1, v) :: rest else p :: setKey rest k v

/-- Python `\x7b**a, **b\x7d`: start from `a` and assign every pair of `b` in
order — a shallow merge in which the keys of `b` win. -/
def dictMerge (a b : List (String × JSON)) : List (String × JSON) :=
  b.foldl (fun acc p => setKey acc p.1 p.2) a

/-- `if x:` guard on an optional string argument before storing it under key
`k` (Python truthiness: `None` and `""` are falsy). -/
def truthyStrEntry (x : Option String) (k : String) : List (String × JSON) :=
  match x with
  | some s => if s = "" then [] else [(k, JSON.str s)]
  | none => []

/-- `if x:` guard on an optional integer argument (0 and `None` are falsy). -/
def truthyIntEntry (x : Option Int) (k : String) : List (String × JSON) :=
  match x with
  | some n => if n = 0 then [] else [(k, JSON.num n)]
  | none => []

/-- `if x:` guard on an optional boolean flag: only `Some true` stores the
fixed string value `v` under `k` (used for the `...GeneratedBy` stamps). -/
def trueStampEntry (x : Option Bool) (k : String) (v : String) : List (String × JSON) :=
  if x = some true then [(k, JSON.str v)] else []

/-- `if x is not None:` guard on an optional boolean argument. -/
def someBoolEntry (x : Option Bool) (k : String) : List (String × JSON) :=
  match x with
  | some b => [(k, JSON.bool b)]
  | none => []

/-- `if x is not None:` guard on an optional integer argument. -/
def someIntEntry (x : Option Int) (k : String) : List (String × JSON) :=
  match x with
  | some n => [(k, JSON.num n)]
  | none => []

/-- `if x is not None:` guard on an optional string argument. -/
def someStrEntry (x : Option String) (k : String) : List (String × JSON) :=
  match x with
  | some s => [(k, JSON.str s)]
  | none => []

theorem lookupKV_append (l1 l2 : List (String × JSON)) (k : String) :
    lookupKV (l1 ++ l2) k =
      match lookupKV l1 k with
      | some v => some v
      | none => lookupKV l2 k := by
  induction l1 with
  | nil => rfl
  | cons p rest ih =>
      simp only [List.cons_append, lookupKV]
      split
      · rfl
      · exact ih

theorem lookupKV_append_of_none (l1 l2 : List (String × JSON)) (k : String)
    (h : lookupKV l1 k = none) : lookupKV (l1 ++ l2) k = lookupKV l2 k := by
  rw [lookupKV_append, h]

theorem lookupKV_append_of_some (l1 l2 : List (String × JSON)) (k : String) (v : JSON)
    (h : lookupKV l1 k = some v) : lookupKV (l1 ++ l2) k = some v := by
  rw [lookupKV_append, h]

theorem lookupKV_append_none (l1 l2 : List (String × JSON)) (k : String)
    (h1 : lookupKV l1 k = none) (h2 : lookupKV l2 k = none) :
    lookupKV (l1 ++ l2) k = none := by
  rw [lookupKV_append, h1, h2]

theorem lookupKV_truthyStrEntry_ne (x : Option String) (k k2 : String) (h : k ≠ k2) :
    lookupKV (truthyStrEntry x k) k2 = none := by
  cases x with
  | none => rfl
  | some s =>
      simp only [truthyStrEntry]
      split
      · rfl
      · simp [lookupKV, h]

theorem lookupKV_truthyIntEntry_ne (x : Option Int) (k k2 : String) (h : k ≠ k2) :
    lookupKV (truthyIntEntry x k) k2 = none := by
  cases x with
  | none => rfl
  | some n =>
      simp only [truthyIntEntry]
      split
      · rfl
      · simp [lookupKV, h]

theorem lookupKV_trueStampEntry_ne (x : Option Bool) (k k2 v : String) (h : k ≠ k2) :
    lookupKV (trueStampEntry x k v) k2 = none := by
  simp only [trueStampEntry]
  split
  · simp [lookupKV, h]
  · rfl

theorem lookupKV_trueStampEntry_self (x : Option Bool) (k v : String) :
    lookupKV (trueStampEntry x k v) k =
      if x = some true then some (JSON.str v) else none := by
  simp only [trueStampEntry]
  split
  · simp [lookupKV]
  · rfl

theorem lookupKV_someBoolEntry_ne (x : Option Bool) (k k2 : String) (h : k ≠ k2) :
    lookupKV (someBoolEntry x k) k2 = none := by
  cases x with
  | none => rfl
  | some b => simp [someBoolEntry, lookupKV, h]

theorem lookupKV_someIntEntry_ne (x : Option Int) (k k2 : String) (h : k ≠ k2) :
    lookupKV (someIntEntry x k) k2 = none := by
  cases x with
  | none => rfl
  | some n => simp [someIntEntry, lookupKV, h]

theorem lookupKV_someStrEntry_ne (x : Option String) (k k2 : String) (h : k ≠ k2) :
    lookupKV (someStrEntry x k) k2 = none := by
  cases x with
  | none => rfl
  | some s => simp [someStrEntry, lookupKV, h]

theorem lookupKV_setKey_self (d : List (String × JSON)) (k : String) (v : JSON) :
    lookupKV (setKey d k v) k = some v := by
  induction d with
  | nil => simp [setKey, lookupKV]
  | cons p rest ih =>
      simp only [setKey]
      split
      case isTrue h => simp [lookupKV, h]
      case isFalse h => simp [lookupKV, h, ih]

theorem lookupKV_setKey_ne (d : List (String × JSON)) (k k2 : String) (v : JSON)
    (h : k2 ≠ k) : lookupKV (setKey d k v) k2 = lookupKV d k2 := by
  induction d with
  | nil =>
      simp only [setKey, lookupKV]
      rw [if_neg (fun hh => h hh.symm)]
  | cons p rest ih =>
      simp only [setKey]
      split
      case isTrue hp =>
          subst hp
          simp only [lookupKV]
          split
          case isTrue hq => exact absurd hq.symm (by simpa using h)
          case isFalse hq => rfl
      case isFalse hp => simp only [lookupKV]; split <;> simp [ih]

theorem lookupKV_eq_none_of_not_mem (l : List (String × JSON)) (k : String)
    (h : k ∉ l.map Prod.fst) : lookupKV l k = none := by
  induction l with
  | nil => rfl
  | cons p rest ih =>
      simp only [List.map_cons, List.mem_cons] at h
      push_neg at h
      simp only [lookupKV]
      rw [if_neg (fun hh => h.1 hh.symm)]
      exact ih h.2

theorem dictMerge_cons (a : List (String × JSON)) (p : String × JSON)
    (b : List (String × JSON)) :
    dictMerge a (p :: b) = dictMerge (setKey a p.1 p.2) b := rfl

/-- Keys absent from the caller's dict keep the value from the base dict. -/
theorem lookupKV_dictMerge_of_none (a b : List (String × JSON)) (k : String)
    (h : lookupKV b k = none) : lookupKV (dictMerge a b) k = lookupKV a k := by
  induction b generalizing a with
  | nil => rfl
  | cons p rest ih =>
      simp only [lookupKV] at h
      rw [dictMerge_cons]
      by_cases hp : p.1 = k
      · rw [if_pos hp] at h
        exact absurd h (by simp)
      · rw [if_neg hp] at h
        rw [ih _ h, lookupKV_setKey_ne _ _ _ _ (fun hh => hp hh.symm)]

/-- Keys present in the caller's dict win in the merge (caller dicts have
no duplicate keys, as every Python dict). -/
theorem lookupKV_dictMerge_of_some (a b : List (String × JSON)) (k : String) (v : JSON)
    (hnd : (b.map Prod.fst).Nodup) (h : lookupKV b k = some v) :
    lookupKV (dictMerge a b) k = some v := by
  induction b generalizing a with
  | nil => exact absurd h (by simp [lookupKV])
  | cons p rest ih =>
      simp only [List.map_cons, List.nodup_cons] at hnd
      simp only [lookupKV] at h
      rw [dictMerge_cons]
      by_cases hp : p.1 = k
      · rw [if_pos hp] at h
        have hrest : lookupKV rest k = none := by
          apply lookupKV_eq_none_of_not_mem
          rw [← hp]
          exact hnd.1
        rw [lookupKV_dictMerge_of_none _ _ _ hrest, ← hp, lookupKV_setKey_self]
        exact h
      · rw [if_neg hp] at h
        exact ih _ hnd.2 h

theorem List_any_of_lookupKV (l : List (String × JSON)) (k : String) (v : JSON)
    (h : lookupKV l k = some v) : l.any (fun p => p.1 == k) = true := by
  induction l with
  | nil => exact absurd h (by simp [lookupKV])
  | cons p rest ih =>
      simp only [lookupKV] at h
      simp only [List.any_cons, Bool.or_eq_true, beq_iff_eq]
      by_cases hp : p.1 = k
      · exact Or.inl hp
      · rw [if_neg hp] at h
        exact Or.inr (ih h)

def isPrefixList (old l : List Char) : Bool :=
  match old, l with
  | [], _ => true
  | _ :: _, [] => false
  | a :: as, b :: bs => a = b && isPrefixList as bs

/-- Fuelled scanner behind `pyReplace`; fuel is the input length, and each
step consumes one fuel and at least one character, so the fuel never runs
out first. -/
def replaceAux (old new : List Char) : Nat → List Char → List Char
  | 0, l => l
  | _, [] => []
  | fuel + 1, c :: rest =>
      if isPrefixList old (c :: rest) then
        new ++ replaceAux old new fuel (rest.drop (old.length - 1))
      else
        c :: replaceAux old new fuel rest

/-- Python `s.replace(old, new)`: left-to-right, non-overlapping replacement
of every occurrence (this embedding is used only with non-empty `old`). -/
def pyReplace (s old new : String) : String :=
  String.mk (replaceAux old.data new.data s.data.length s.data)

/-- Python `s.upper()` (the strings it is applied to are ASCII). -/
def pyUpper (s : String) : String := String.mk (s.data.map Char.toUpper)

/-- Python `s.lower()` (the strings it is applied to are ASCII). -/
def pyLower (s : String) : String := String.mk (s.data.map Char.toLower)

/-- Outcome of one network attempt: an HTTP response (status code, raw text,
parsed JSON body) or a transport-level failure (timeout, DNS, reset) whose
exception message is the string. -/
inductive HttpOutcome where
  | response : Nat → String → JSON → HttpOutcome
  | failure : String → HttpOutcome

/-- The network oracle: what the remote side answers to (method, endpoint,
request body). -/
def Env : Type := String → String → Option JSON → HttpOutcome

/-- One API request as issued by `make_api_request` (GET requests carry no
body in the source). -/
structure ApiRequest where
  method : String
  endpoint : String
  data : Option JSON

/-- What `make_api_request` makes of an outcome: the parsed body on a 2xx
status, the `HTTP status: text` error dict on any other status
(`raise_for_status` raises exactly for non-2xx), and the wrapped exception
message on a transport failure. -/
def handleOutcome : HttpOutcome → JSON
  | HttpOutcome.response status text body =>
      if 200 ≤ status ∧ status < 300 then body
      else JSON.obj [("error", JSON.str ("HTTP " ++ toString status ++ ": " ++ text))]
  | HttpOutcome.failure msg =>
      JSON.obj [("error", JSON.str ("Request failed: " ++ msg))]

/-- `make_api_request(method, endpoint, data)` from server.py: dispatch on
`method.upper()` over GET/POST/PUT, otherwise report an unsupported method
without touching the network.  Returns the result value together with the
log of requests issued. -/
def make_api_request (env : Env) (method endpoint : String) (data : Option JSON) :
    JSON × List ApiRequest :=
  if pyUpper method = "GET" then
    (handleOutcome (env "GET" endpoint none), [⟨"GET", endpoint, none⟩])
  else if pyUpper method = "POST" then
    (handleOutcome (env "POST" endpoint data), [⟨"POST", endpoint, data⟩])
  else if pyUpper method = "PUT" then
    (handleOutcome (env "PUT" endpoint data), [⟨"PUT", endpoint, data⟩])
  else
    (JSON.obj [("error", JSON.str ("Unsupported HTTP method: " ++ method))], [])

/-- The `\x7b"text": ..., "visibility": True, "size": "medium"\x7d` display
object every builder stores under `_header1`/`_header2`. -/
def headerObj (text : String) : JSON :=
  JSON.obj [("text", JSON.str text), ("visibility", JSON.bool true), ("size", JSON.str "medium")]

/-- The four literal-tag removals applied to header texts in
`create_content_card`, in source order. -/
def stripTags (s : String) : String :=
  pyReplace (pyReplace (pyReplace (pyReplace s "<b>" "") "</b>" "") "<i>" "") "</i>" ""

/-- The `contents` dict assembled by `create_audio_card`, entry by entry in
source order. -/
def audioContents (audio_url title : String)
    (background_image_url audio_script : Option String)
    (audio_generated : Option Bool) (audio_generated_at : Option String)
    (image_prompt : Option String) (image_generated : Option Bool)
    (image_generated_at : Option String) : List (String × JSON) :=
  [("_header1", headerObj title), ("header1", JSON.str title), ("audio", JSON.str audio_url)]
  ++ truthyStrEntry background_image_url "image"
  ++ truthyStrEntry audio_script "audioScript"
  ++ someBoolEntry audio_generated "audioGenerated"
  ++ truthyStrEntry audio_generated_at "audioGeneratedAt"
  ++ trueStampEntry audio_generated "audioGeneratedBy" "CLAUDE_MCP_SERVER"
  ++ truthyStrEntry image_prompt "imagePrompt"
  ++ someBoolEntry image_generated "imageGenerated"
  ++ truthyStrEntry image_generated_at "imageGeneratedAt"
  ++ trueStampEntry image_generated "imageGeneratedBy" "CLAUDE_MCP_SERVER"

/-- The `card_data` dict POSTed by `create_audio_card`. -/
def audioCardData (course_id audio_url title : String)
    (background_image_url audio_script : Option String)
    (audio_generated : Option Bool) (audio_generated_at : Option String)
    (image_prompt : Option String) (image_generated : Option Bool)
    (image_generated_at : Option String) (sort_order : Option Int)
    (is_mandatory : Bool) : List (String × JSON) :=
  [("courseId", JSON.str course_id), ("cardType", JSON.str "audio"),
   ("contents", JSON.obj (audioContents audio_url title background_image_url audio_script
      audio_generated audio_generated_at image_prompt image_generated image_generated_at)),
   ("isMandatory", JSON.bool is_mandatory)]
  ++ truthyIntEntry sort_order "sortOrder"

/-- `create_audio_card` tool: assemble the payload and POST it. -/
def create_audio_card (env : Env) (course_id audio_url title : String)
    (background_image_url audio_script : Option String)
    (audio_generated : Option Bool) (audio_generated_at : Option String)
    (image_prompt : Option String) (image_generated : Option Bool)
    (image_generated_at : Option String) (sort_order : Option Int)
    (is_mandatory : Bool) : JSON × List ApiRequest :=
  make_api_request env "POST" "/api/createCard"
    (some (JSON.obj (audioCardData course_id audio_url title background_image_url audio_script
      audio_generated audio_generated_at image_prompt image_generated image_generated_at
      sort_order is_mandatory)))

/-- The `_header2`/`header2` pair of `create_content_card`, guarded by
`if header2_text:`. -/
def header2Entry (x : Option String) : List (String × JSON) :=
  match x with
  | some s =>
      if s = "" then []
      else [("_header2", headerObj s), ("header2", JSON.str (stripTags s))]
  | none => []

/-- The `image`/`align` pair of `create_content_card`, guarded by
`if image_url:`. -/
def imageAlignEntry (x : Option String) (align : String) : List (String × JSON) :=
  match x with
  | some s => if s = "" then [] else [("image", JSON.str s), ("align", JSON.str align)]
  | none => []

/-- The `contents` dict assembled by `create_content_card`, in source order:
`_header1` keeps the raw text, `header1` gets the tag-stripped text. -/
def contentContents (header1_text : String) (header2_text image_url : Option String)
    (image_prompt : Option String) (image_generated : Option Bool)
    (image_generated_at : Option String) (align : String) : List (String × JSON) :=
  [("_header1", headerObj header1_text), ("header1", JSON.str (stripTags header1_text))]
  ++ header2Entry header2_text
  ++ imageAlignEntry image_url align
  ++ truthyStrEntry image_prompt "imagePrompt"
  ++ someBoolEntry image_generated "imageGenerated"
  ++ truthyStrEntry image_generated_at "imageGeneratedAt"
  ++ trueStampEntry image_generated "imageGeneratedBy" "CLAUDE_MCP_SERVER"

/-- The `card_data` dict POSTed by `create_content_card` (it carries `align`
at top level unconditionally). -/
def contentCardData (course_id header1_text : String)
    (header2_text image_url image_prompt : Option String)
    (image_generated : Option Bool) (image_generated_at : Option String)
    (align : String) (sort_order : Option Int) (is_mandatory : Bool) :
    List (String × JSON) :=
  [("courseId", JSON.str course_id), ("cardType", JSON.str "content"),
   ("contents", JSON.obj (contentContents header1_text header2_text image_url image_prompt
      image_generated image_generated_at align)),
   ("align", JSON.str align), ("isMandatory", JSON.bool is_mandatory)]
  ++ truthyIntEntry sort_order "sortOrder"

/-- `create_content_card` tool. -/
def create_content_card (env : Env) (course_id header1_text : String)
    (header2_text image_url image_prompt : Option String)
    (image_generated : Option Bool) (image_generated_at : Option String)
    (align : String) (sort_order : Option Int) (is_mandatory : Bool) :
    JSON × List ApiRequest :=
  make_api_request env "POST" "/api/createCard"
    (some (JSON.obj (contentCardData course_id header1_text header2_text image_url image_prompt
      image_generated image_generated_at align sort_order is_mandatory)))

/-- The `contents` dict of `create_quiz_card`. -/
def quizContents (question : String) (options : List String) (correct_answer : String)
    (comment : Option String) : List (String × JSON) :=
  [("_header1", headerObj question), ("header1", JSON.str question),
   ("options", JSON.arr (options.map JSON.str)),
   ("correct", JSON.arr [JSON.str correct_answer])]
  ++ truthyStrEntry comment "comment"

/-- The `card_data` dict POSTed by `create_quiz_card`. -/
def quizCardData (course_id question : String) (options : List String)
    (correct_answer : String) (comment : Option String) (sort_order : Option Int)
    (is_mandatory : Bool) : List (String × JSON) :=
  [("courseId", JSON.str course_id), ("cardType", JSON.str "quiz"),
   ("contents", JSON.obj (quizContents question options correct_answer comment)),
   ("isMandatory", JSON.bool is_mandatory)]
  ++ truthyIntEntry sort_order "sortOrder"

/-- `create_quiz_card` tool: the two local validations run before any
network call, in source order. -/
def create_quiz_card (env : Env) (course_id question : String) (options : List String)
    (correct_answer : String) (comment : Option String) (sort_order : Option Int)
    (is_mandatory : Bool) : JSON × List ApiRequest :=
  if options.length < 2 ∨ 4 < options.length then
    (JSON.obj [("error", JSON.str "Quiz must have 2-4 options")], [])
  else if options.contains correct_answer = false then
    (JSON.obj [("error", JSON.str ("Correct answer \x27" ++ correct_answer
        ++ "\x27 must be one of the provided options"))], [])
  else
    make_api_request env "POST" "/api/createCard"
      (some (JSON.obj (quizCardData course_id question options correct_answer comment
        sort_order is_mandatory)))

/-- The `card_data` dict POSTed by `create_poll_card`. -/
def pollCardData (course_id question : String) (options : List String)
    (sort_order : Option Int) (is_mandatory : Bool) : List (String × JSON) :=
  [("courseId", JSON.str course_id), ("cardType", JSON.str "poll"),
   ("contents", JSON.obj [("_header1", headerObj question),
      ("options", JSON.arr (options.map JSON.str))]),
   ("isMandatory", JSON.bool is_mandatory)]
  ++ truthyIntEntry sort_order "sortOrder"

/-- `create_poll_card` tool. -/
def create_poll_card (env : Env) (course_id question : String) (options : List String)
    (sort_order : Option Int) (is_mandatory : Bool) : JSON × List ApiRequest :=
  if options.length < 2 ∨ 4 < options.length then
    (JSON.obj [("error", JSON.str "Poll must have 2-4 options")], [])
  else
    make_api_request env "POST" "/api/createCard"
      (some (JSON.obj (pollCardData course_id question options sort_order is_mandatory)))

/-- The `card_data` dict POSTed by `create_form_card`. -/
def formCardData (course_id question : String) (sort_order : Option Int)
    (is_mandatory : Bool) : List (String × JSON) :=
  [("courseId", JSON.str course_id), ("cardType", JSON.str "form"),
   ("contents", JSON.obj [("_header1", headerObj question)]),
   ("isMandatory", JSON.bool is_mandatory)]
  ++ truthyIntEntry sort_order "sortOrder"

/-- `create_form_card` tool. -/
def create_form_card (env : Env) (course_id question : String) (sort_order : Option Int)
    (is_mandatory : Bool) : JSON × List ApiRequest :=
  make_api_request env "POST" "/api/createCard"
    (some (JSON.obj (formCardData course_id question sort_order is_mandatory)))

/-- The `card_data` dict POSTed by `create_video_card`. -/
def videoCardData (course_id video_url : String) (sort_order : Option Int)
    (is_mandatory : Bool) : List (String × JSON) :=
  [("courseId", JSON.str course_id), ("cardType", JSON.str "video"),
   ("contents", JSON.obj [("video", JSON.str video_url)]),
   ("isMandatory", JSON.bool is_mandatory)]
  ++ truthyIntEntry sort_order "sortOrder"

/-- `create_video_card` tool. -/
def create_video_card (env : Env) (course_id video_url : String) (sort_order : Option Int)
    (is_mandatory : Bool) : JSON × List ApiRequest :=
  make_api_request env "POST" "/api/createCard"
    (some (JSON.obj (videoCardData course_id video_url sort_order is_mandatory)))

/-- The `card_data` dict POSTed by `create_link_card` (no `isMandatory`
parameter in the source). -/
def linkCardData (course_id title link_url link_caption : String)
    (sort_order : Option Int) : List (String × JSON) :=
  [("courseId", JSON.str course_id), ("cardType", JSON.str "link"),
   ("contents", JSON.obj [("_header1", headerObj title), ("header1", JSON.str title),
      ("link", JSON.str link_url), ("linkcaption", JSON.str link_caption)])]
  ++ truthyIntEntry sort_order "sortOrder"

/-- `create_link_card` tool. -/
def create_link_card (env : Env) (course_id title link_url link_caption : String)
    (sort_order : Option Int) : JSON × List ApiRequest :=
  make_api_request env "POST" "/api/createCard"
    (some (JSON.obj (linkCardData course_id title link_url link_caption sort_order)))

/-- The non-`contents` entries of `update_card`'s `update_data` dict, each
guarded by `is not None`, in source order. -/
def updateOptFields (is_mandatory : Option Bool) (sort_order : Option Int)
    (is_active : Option Bool) (card_type : Option String) : List (String × JSON) :=
  someBoolEntry is_mandatory "isMandatory"
  ++ someIntEntry sort_order "sortOrder"
  ++ someBoolEntry is_active "isActive"
  ++ someStrEntry card_type "cardType"

/-- `update_card` tool.  With a `contents` partial update it GETs the current
card, aborts on an error value, shallow-merges and PUTs; without one it PUTs
the other fields directly (or reports "No update data provided").  `none`
models the uncaught Python exceptions on a non-dict GET body or a non-dict
`contents` value (key membership / `.get` / `\x7b**...\x7d` unpacking all
raise there). -/
def update_card (env : Env) (card_id : String) (contents : Option (List (String × JSON)))
    (is_mandatory : Option Bool) (sort_order : Option Int) (is_active : Option Bool)
    (card_type : Option String) : Option (JSON × List ApiRequest) :=
  match contents with
  | some c =>
    let fetched := make_api_request env "GET" ("/api/card/" ++ card_id) none
    match fetched.1 with
    | JSON.obj cr =>
      if cr.any (fun p => p.1 == "error") then
        match lookupKV cr "error" with
        | some (JSON.str msg) =>
            some (JSON.obj [("error",
                JSON.str ("Failed to fetch card for update: " ++ msg))], fetched.2)
        | _ => none
      else
        match (lookupKV cr "contents").getD (JSON.obj []) with
        | JSON.obj fc =>
          let update_data := ("contents", JSON.obj (dictMerge fc c))
              :: updateOptFields is_mandatory sort_order is_active card_type
          let put := make_api_request env "PUT" ("/api/card/" ++ card_id)
              (some (JSON.obj update_data))
          some (put.1, fetched.2 ++ put.2)
        | _ => none
    | _ => none
  | none =>
    let update_data := updateOptFields is_mandatory sort_order is_active card_type
    if update_data.isEmpty then
      some (JSON.obj [("error", JSON.str "No update data provided")], [])
    else
      let put := make_api_request env "PUT" ("/api/card/" ++ card_id)
          (some (JSON.obj update_data))
      some (put.1, put.2)

/-- The `^\x5cd+x\x5cd+$` size check of `generate_image_with_azure_openai`. -/
def sizeFormatValid (s : String) : Bool :=
  let w := s.data.takeWhile Char.isDigit
  match s.data.dropWhile Char.isDigit with
  | 'x' :: h => w ≠ [] && h ≠ [] && h.all Char.isDigit
  | _ => false

/-- The JSON body `generate_image_with_azure_openai` POSTs to the image
provider. -/
def providerImageData (prompt size output_format : String) : List (String × JSON) :=
  [("prompt", JSON.str prompt), ("size", JSON.str size), ("quality", JSON.str "medium"),
   ("output_compression", JSON.num 100), ("output_format", JSON.str output_format),
   ("n", JSON.num 1)]

/-- Request assembly of `generate_image_with_azure_openai`: validate size and
format before any network call (the raised ValueError is caught and wrapped
with the stage prefix), then build the provider request body. -/
def imageGenRequestData (prompt size output_format : String) :
    Except String (List (String × JSON)) :=
  if sizeFormatValid size = false then
    Except.error ("Azure OpenAI image generation failed: Invalid size format: " ++ size
      ++ ". Must be in format \x27WIDTHxHEIGHT\x27")
  else if output_format ≠ "png" ∧ output_format ≠ "jpg" then
    Except.error ("Azure OpenAI image generation failed: Invalid output format: "
      ++ output_format ++ ". Must be \x27png\x27 or \x27jpg\x27")
  else
    Except.ok (providerImageData prompt size output_format)

/-- `generate_and_upload_image`: generation, WebP transcode and blob upload;
what the claims observe of it is the provider request it issues and the
filename base `title.replace(" ", "_").lower()` it uploads under. -/
def generate_and_upload_image (prompt title size output_format : String) :
    Except String (String × List (String × JSON)) :=
  (imageGenRequestData prompt size output_format).map
    (fun d => (pyLower (pyReplace title " " "_"), d))

/-- `generate_image_from_text` tool: default the optional arguments, map
`aspect_ratio.lower()` to a pixel size (anything unrecognized falls back to
square), validate the output format, then run the pipeline. -/
def generate_image_from_text (prompt title : String)
    (aspect_ratio output_format : Option String) :
    Except String (String × List (String × JSON)) :=
  let ar := match aspect_ratio with | none => "square" | some a => a
  let fmt := match output_format with | none => "png" | some f => f
  let size :=
    if pyLower ar = "square" then "1024x1024"
    else if pyLower ar = "portrait" then "1024x1536"
    else if pyLower ar = "landscape" then "1536x1024"
    else "1024x1024"
  if ¬ (fmt = "png" ∨ fmt = "jpg") then
    Except.error ("Error: Invalid output format \x27" ++ fmt
      ++ "\x27. Must be \x27png\x27 or \x27jpg\x27")
  else
    generate_and_upload_image prompt title size fmt

/-- `generate_background_image_for_audio` tool: the size is the literal
"1024x1536" (portrait) and the format the literal "png"; prompt and title
are its only parameters. -/
def generate_background_image_for_audio (prompt title : String) :
    Except String (String × List (String × JSON)) :=
  generate_and_upload_image prompt title "1024x1536" "png"

/-- Fixture oracle: every request answers 200 with a trivial body. -/
def env0 : Env := fun _ _ _ => HttpOutcome.response 200 "ok" (JSON.obj [("ok", JSON.bool true)])

/-- Fixture oracle: every request answers 404 Not Found. -/
def env404 : Env := fun _ _ _ => HttpOutcome.response 404 "Not Found" JSON.null

/-- Fixture oracle: GET answers the current card whose contents map a to 1
and b to 2; writes answer a plain confirmation body. -/
def envCard : Env := fun m _ _ =>
  if m = "GET" then
    HttpOutcome.response 200 "" (JSON.obj [("id", JSON.str "k1"),
      ("contents", JSON.obj [("a", JSON.num 1), ("b", JSON.num 2)])])
  else HttpOutcome.response 200 "" (JSON.obj [("updated", JSON.bool true)])

/-- C8: a method whose upper-cased form is not GET, POST or PUT yields the
unsupported-method error with an empty request log, and on a non-2xx
response (for each supported method) the result is the error value carrying
the HTTP status code and the raw response text. -/
theorem make_api_request_error_handling :
    (∀ (env : Env) (m e : String) (d : Option JSON),
      pyUpper m ≠ "GET" → pyUpper m ≠ "POST" → pyUpper m ≠ "PUT" →
      make_api_request env m e d
        = (JSON.obj [("error", JSON.str ("Unsupported HTTP method: " ++ m))], []))
    ∧ (∀ (env : Env) (e : String) (d : Option JSON) (st : Nat) (txt : String) (body : JSON),
      env "GET" e none = HttpOutcome.response st txt body → ¬ (200 ≤ st ∧ st < 300) →
      make_api_request env "GET" e d
        = (JSON.obj [("error", JSON.str ("HTTP " ++ toString st ++ ": " ++ txt))],
           [⟨"GET", e, none⟩]))
    ∧ (∀ (env : Env) (e : String) (d : Option JSON) (st : Nat) (txt : String) (body : JSON),
      env "POST" e d = HttpOutcome.response st txt body → ¬ (200 ≤ st ∧ st < 300) →
      make_api_request env "POST" e d
        = (JSON.obj [("error", JSON.str ("HTTP " ++ toString st ++ ": " ++ txt))],
           [⟨"POST", e, d⟩]))
    ∧ (∀ (env : Env) (e : String) (d : Option JSON) (st : Nat) (txt : String) (body : JSON),
      env "PUT" e d = HttpOutcome.response st txt body → ¬ (200 ≤ st ∧ st < 300) →
      make_api_request env "PUT" e d
        = (JSON.obj [("error", JSON.str ("HTTP " ++ toString st ++ ": " ++ txt))],
           [⟨"PUT", e, d⟩])) := by
  refine ⟨?_, ?_, ?_, ?_⟩
  · intro env m e d h1 h2 h3
    simp only [make_api_request]
    rw [if_neg h1, if_neg h2, if_neg h3]
  · intro env e d st txt body hresp hst
    show (handleOutcome (env "GET" e none), _) = _
    rw [hresp]
    simp only [handleOutcome]
    rw [if_neg hst]
  · intro env e d st txt body hresp hst
    show (handleOutcome (env "POST" e d), _) = _
    rw [hresp]
    simp only [handleOutcome]
    rw [if_neg hst]
  · intro env e d st txt body hresp hst
    show (handleOutcome (env "PUT" e d), _) = _
    rw [hresp]
    simp only [handleOutcome]
    rw [if_neg hst]

/-- C8 witness: DELETE yields the unsupported-method error without touching
the oracle, and a 404 GET yields the status-and-text error. -/
theorem make_api_request_error_handling_witness :
    (pyUpper "DELETE" ≠ "GET" ∧ pyUpper "DELETE" ≠ "POST" ∧ pyUpper "DELETE" ≠ "PUT"
      ∧ make_api_request env0 "DELETE" "/api/course" none
        = (JSON.obj [("error", JSON.str "Unsupported HTTP method: DELETE")], []))
    ∧ (¬ (200 ≤ 404 ∧ 404 < 300)
      ∧ make_api_request env404 "GET" "/api/card/k1" none
        = (JSON.obj [("error", JSON.str "HTTP 404: Not Found")],
           [⟨"GET", "/api/card/k1", none⟩])) := by
  constructor
  · exact ⟨by decide, by decide, by decide,
      make_api_request_error_handling.1 env0 "DELETE" "/api/course" none
        (by decide) (by decide) (by decide)⟩
  · exact ⟨by decide,
      (make_api_request_error_handling.2.1 env404 "/api/card/k1" none 404 "Not Found"
        JSON.null rfl (by decide)).trans rfl⟩

/-- C2: with fewer than 2 or more than 4 options, or a correct answer not
among the options, create_quiz_card returns the matching structured error
value and issues no request at all. -/
theorem create_quiz_card_rejects_locally (env : Env) (course_id question : String)
    (options : List String) (correct_answer : String) (comment : Option String)
    (sort_order : Option Int) (is_mandatory : Bool)
    (h : options.length < 2 ∨ 4 < options.length ∨ options.contains correct_answer = false) :
    (create_quiz_card env course_id question options correct_answer comment
        sort_order is_mandatory).2 = []
    ∧ ((options.length < 2 ∨ 4 < options.length) →
        (create_quiz_card env course_id question options correct_answer comment
            sort_order is_mandatory).1
          = JSON.obj [("error", JSON.str "Quiz must have 2-4 options")])
    ∧ (¬ (options.length < 2 ∨ 4 < options.length) →
        options.contains correct_answer = false →
        (create_quiz_card env course_id question options correct_answer comment
            sort_order is_mandatory).1
          = JSON.obj [("error", JSON.str ("Correct answer \x27" ++ correct_answer
              ++ "\x27 must be one of the provided options"))]) := by
  by_cases hcount : options.length < 2 ∨ 4 < options.length
  · refine ⟨?_, fun _ => ?_, fun hn _ => absurd hcount hn⟩
    · simp only [create_quiz_card]
      rw [if_pos hcount]
    · simp only [create_quiz_card]
      rw [if_pos hcount]
  · have hcontains : options.contains correct_answer = false := by
      rcases h with h1 | h1 | h1
      · exact absurd (Or.inl h1) hcount
      · exact absurd (Or.inr h1) hcount
      · exact h1
    refine ⟨?_, fun hc => absurd hc hcount, fun _ _ => ?_⟩
    · simp only [create_quiz_card]
      rw [if_neg hcount, if_pos hcontains]
    · simp only [create_quiz_card]
      rw [if_neg hcount, if_pos hcontains]

/-- C2 witness: one option with a matching answer yields exactly the
"Quiz must have 2-4 options" error and an empty request log. -/
theorem create_quiz_card_rejects_locally_witness :
    ((["a"] : List String).length < 2 ∨ 4 < (["a"] : List String).length
      ∨ (["a"] : List String).contains "a" = false)
    ∧ (create_quiz_card env0 "c1" "Q" ["a"] "a" none none true).1
        = JSON.obj [("error", JSON.str "Quiz must have 2-4 options")]
    ∧ (create_quiz_card env0 "c1" "Q" ["a"] "a" none none true).2 = [] := by
  have h := create_quiz_card_rejects_locally env0 "c1" "Q" ["a"] "a" none none true
    (Or.inl (by decide))
  exact ⟨Or.inl (by decide), h.2.1 (Or.inl (by decide)), h.1⟩

/-- C6: with 2 to 4 options and a correct answer among them,
create_quiz_card POSTs exactly the quiz payload, whose cardType is "quiz",
whose contents carry the options list untouched and the correct answer as a
singleton list. -/
theorem create_quiz_card_valid_payload (env : Env) (course_id question : String)
    (options : List String) (correct_answer : String) (comment : Option String)
    (sort_order : Option Int) (is_mandatory : Bool)
    (h1 : 2 ≤ options.length) (h2 : options.length ≤ 4)
    (h3 : options.contains correct_answer = true) :
    (create_quiz_card env course_id question options correct_answer comment
        sort_order is_mandatory).2
      = [⟨"POST", "/api/createCard", some (JSON.obj (quizCardData course_id question
          options correct_answer comment sort_order is_mandatory))⟩]
    ∧ lookupKV (quizCardData course_id question options correct_answer comment
        sort_order is_mandatory) "cardType" = some (JSON.str "quiz")
    ∧ lookupKV (quizCardData course_id question options correct_answer comment
        sort_order is_mandatory) "contents"
      = some (JSON.obj (quizContents question options correct_answer comment))
    ∧ lookupKV (quizContents question options correct_answer comment) "options"
      = some (JSON.arr (options.map JSON.str))
    ∧ lookupKV (quizContents question options correct_answer comment) "correct"
      = some (JSON.arr [JSON.str correct_answer]) := by
  have hcount : ¬ (options.length < 2 ∨ 4 < options.length) := by omega
  have hcontains : ¬ (options.contains correct_answer = false) := by
    rw [h3]; exact fun hh => Bool.noConfusion hh
  refine ⟨?_, rfl, rfl, rfl, rfl⟩
  simp only [create_quiz_card]
  rw [if_neg hcount, if_neg hcontains]
  rfl

/-- C6 witness: the 2+2 quiz scenario of the spec. -/
theorem create_quiz_card_valid_payload_witness :
    (2 ≤ (["3", "4", "5"] : List String).length ∧ (["3", "4", "5"] : List String).length ≤ 4
      ∧ (["3", "4", "5"] : List String).contains "4" = true)
    ∧ (create_quiz_card env0 "c1" "2+2?" ["3", "4", "5"] "4" none none true).2
        = [⟨"POST", "/api/createCard", some (JSON.obj (quizCardData "c1" "2+2?"
            ["3", "4", "5"] "4" none none true))⟩]
    ∧ lookupKV (quizContents "2+2?" ["3", "4", "5"] "4" none) "options"
        = some (JSON.arr [JSON.str "3", JSON.str "4", JSON.str "5"])
    ∧ lookupKV (quizContents "2+2?" ["3", "4", "5"] "4" none) "correct"
        = some (JSON.arr [JSON.str "4"]) := by
  have h := create_quiz_card_valid_payload env0 "c1" "2+2?" ["3", "4", "5"] "4"
    none none true (by decide) (by decide) (by decide)
  exact ⟨⟨by decide, by decide, by decide⟩, h.1, h.2.2.2.1.trans rfl, h.2.2.2.2⟩

/-- C10: for each of the seven card-creation tools, passing sort_order as 0
produces the very same result (and request payload) as omitting it, and the
payload carries no sortOrder key, because the builders test truthiness
rather than presence. -/
theorem sort_order_zero_omits_sortOrder (env : Env)
    (course_id audio_url title : String) (b asc : Option String) (ag : Option Bool)
    (agat ip : Option String) (ig : Option Bool) (igat : Option String)
    (h1t : String) (h2t iu ipr : Option String) (al : String)
    (question correct_answer : String) (options : List String) (comment : Option String)
    (video_url link_url link_caption : String) (im : Bool) :
    create_audio_card env course_id audio_url title b asc ag agat ip ig igat (some 0) im
      = create_audio_card env course_id audio_url title b asc ag agat ip ig igat none im
    ∧ create_content_card env course_id h1t h2t iu ipr ig igat al (some 0) im
      = create_content_card env course_id h1t h2t iu ipr ig igat al none im
    ∧ create_quiz_card env course_id question options correct_answer comment (some 0) im
      = create_quiz_card env course_id question options correct_answer comment none im
    ∧ create_poll_card env course_id question options (some 0) im
      = create_poll_card env course_id question options none im
    ∧ create_form_card env course_id question (some 0) im
      = create_form_card env course_id question none im
    ∧ create_video_card env course_id video_url (some 0) im
      = create_video_card env course_id video_url none im
    ∧ create_link_card env course_id title link_url link_caption (some 0)
      = create_link_card env course_id title link_url link_caption none
    ∧ lookupKV (audioCardData course_id audio_url title b asc ag agat ip ig igat
        (some 0) im) "sortOrder" = none
    ∧ lookupKV (contentCardData course_id h1t h2t iu ipr ig igat al (some 0) im)
        "sortOrder" = none
    ∧ lookupKV (quizCardData course_id question options correct_answer comment
        (some 0) im) "sortOrder" = none
    ∧ lookupKV (pollCardData course_id question options (some 0) im) "sortOrder" = none
    ∧ lookupKV (formCardData course_id question (some 0) im) "sortOrder" = none
    ∧ lookupKV (videoCardData course_id video_url (some 0) im) "sortOrder" = none
    ∧ lookupKV (linkCardData course_id title link_url link_caption (some 0))
        "sortOrder" = none :=
  ⟨rfl, rfl, rfl, rfl, rfl, rfl, rfl, rfl, rfl, rfl, rfl, rfl, rfl, rfl⟩

theorem lookupKV_trueStamp_prefix (x : Option Bool) (k v : String)
    (rest : List (String × JSON)) (hrest : lookupKV rest k = none) :
    lookupKV (trueStampEntry x k v ++ rest) k
      = if x = some true then some (JSON.str v) else none := by
  by_cases hx : x = some true
  · rw [lookupKV_append, lookupKV_trueStampEntry_self, if_pos hx]
  · rw [lookupKV_append, lookupKV_trueStampEntry_self, if_neg hx]
    exact hrest

/-- C3: in the contents assembled by create_audio_card and
create_content_card, the imageGeneratedBy field is present exactly when the
image_generated flag is passed as true, and then its value is the fixed
constant "CLAUDE_MCP_SERVER"; the same holds for audioGeneratedBy and the
audio_generated flag. -/
theorem generated_by_stamp_invariant (audio_url title : String)
    (b asc : Option String) (ag : Option Bool) (agat ip : Option String)
    (ig : Option Bool) (igat : Option String)
    (h1t : String) (h2t iu ipr : Option String) (al : String) :
    lookupKV (audioContents audio_url title b asc ag agat ip ig igat) "imageGeneratedBy"
      = (if ig = some true then some (JSON.str "CLAUDE_MCP_SERVER") else none)
    ∧ lookupKV (audioContents audio_url title b asc ag agat ip ig igat) "audioGeneratedBy"
      = (if ag = some true then some (JSON.str "CLAUDE_MCP_SERVER") else none)
    ∧ lookupKV (contentContents h1t h2t iu ipr ig igat al) "imageGeneratedBy"
      = (if ig = some true then some (JSON.str "CLAUDE_MCP_SERVER") else none) := by
  refine ⟨?_, ?_, ?_⟩
  · unfold audioContents
    simp only [List.append_assoc]
    refine (lookupKV_append_of_none _ _ _ (by rfl)).trans ?_
    refine (lookupKV_append_of_none _ _ _
      (lookupKV_truthyStrEntry_ne _ _ _ (by decide))).trans ?_
    refine (lookupKV_append_of_none _ _ _
      (lookupKV_truthyStrEntry_ne _ _ _ (by decide))).trans ?_
    refine (lookupKV_append_of_none _ _ _
      (lookupKV_someBoolEntry_ne _ _ _ (by decide))).trans ?_
    refine (lookupKV_append_of_none _ _ _
      (lookupKV_truthyStrEntry_ne _ _ _ (by decide))).trans ?_
    refine (lookupKV_append_of_none _ _ _
      (lookupKV_trueStampEntry_ne _ _ _ _ (by decide))).trans ?_
    refine (lookupKV_append_of_none _ _ _
      (lookupKV_truthyStrEntry_ne _ _ _ (by decide))).trans ?_
    refine (lookupKV_append_of_none _ _ _
      (lookupKV_someBoolEntry_ne _ _ _ (by decide))).trans ?_
    refine (lookupKV_append_of_none _ _ _
      (lookupKV_truthyStrEntry_ne _ _ _ (by decide))).trans ?_
    exact lookupKV_trueStampEntry_self _ _ _
  · unfold audioContents
    simp only [List.append_assoc]
    refine (lookupKV_append_of_none _ _ _ (by rfl)).trans ?_
    refine (lookupKV_append_of_none _ _ _
      (lookupKV_truthyStrEntry_ne _ _ _ (by decide))).trans ?_
    refine (lookupKV_append_of_none _ _ _
      (lookupKV_truthyStrEntry_ne _ _ _ (by decide))).trans ?_
    refine (lookupKV_append_of_none _ _ _
      (lookupKV_someBoolEntry_ne _ _ _ (by decide))).trans ?_
    refine (lookupKV_append_of_none _ _ _
      (lookupKV_truthyStrEntry_ne _ _ _ (by decide))).trans ?_
    exact lookupKV_trueStamp_prefix _ _ _ _
      (lookupKV_append_none _ _ _ (lookupKV_truthyStrEntry_ne _ _ _ (by decide))
        (lookupKV_append_none _ _ _ (lookupKV_someBoolEntry_ne _ _ _ (by decide))
          (lookupKV_append_none _ _ _ (lookupKV_truthyStrEntry_ne _ _ _ (by decide))
            (lookupKV_trueStampEntry_ne _ _ _ _ (by decide)))))
  · unfold contentContents
    simp only [List.append_assoc]
    have hh2 : lookupKV (header2Entry h2t) "imageGeneratedBy" = none := by
      cases h2t with
      | none => rfl
      | some s =>
          simp only [header2Entry]
          split
          · rfl
          · rfl
    have hia : lookupKV (imageAlignEntry iu al) "imageGeneratedBy" = none := by
      cases iu with
      | none => rfl
      | some s =>
          simp only [imageAlignEntry]
          split
          · rfl
          · rfl
    refine (lookupKV_append_of_none _ _ _ (by rfl)).trans ?_
    refine (lookupKV_append_of_none _ _ _ hh2).trans ?_
    refine (lookupKV_append_of_none _ _ _ hia).trans ?_
    refine (lookupKV_append_of_none _ _ _
      (lookupKV_truthyStrEntry_ne _ _ _ (by decide))).trans ?_
    refine (lookupKV_append_of_none _ _ _
      (lookupKV_someBoolEntry_ne _ _ _ (by decide))).trans ?_
    refine (lookupKV_append_of_none _ _ _
      (lookupKV_truthyStrEntry_ne _ _ _ (by decide))).trans ?_
    exact lookupKV_trueStampEntry_self _ _ _

/-- C9 counterexample: header2_text supplied as the empty string is falsy
for the `if header2_text:` guard, so no `_header2`/`header2` pair is stored
even though the argument was supplied. -/
theorem content_card_header2_empty_not_stored :
    lookupKV (contentContents "H" (some "") none none none none "center center")
      "_header2" = none
    ∧ lookupKV (contentContents "H" (some "") none none none none "center center")
      "header2" = none := ⟨rfl, rfl⟩

/-- C9 (amended): create_content_card stores the header text twice — the
`_header1` object keeps the raw text with visibility and size attributes
while `header1` carries the text with the literal tags b, /b, i, /i
removed — and when header2_text is supplied and non-empty the same dual
representation is produced for `_header2`/`header2`. -/
theorem content_card_dual_header_repr (h1t : String) (h2t iu ipr : Option String)
    (ig : Option Bool) (igat : Option String) (al : String) :
    lookupKV (contentContents h1t h2t iu ipr ig igat al) "_header1"
      = some (JSON.obj [("text", JSON.str h1t), ("visibility", JSON.bool true),
          ("size", JSON.str "medium")])
    ∧ lookupKV (contentContents h1t h2t iu ipr ig igat al) "header1"
      = some (JSON.str (pyReplace (pyReplace (pyReplace (pyReplace h1t "<b>" "")
          "</b>" "") "<i>" "") "</i>" ""))
    ∧ (∀ s, h2t = some s → s ≠ "" →
        lookupKV (contentContents h1t h2t iu ipr ig igat al) "_header2"
          = some (JSON.obj [("text", JSON.str s), ("visibility", JSON.bool true),
              ("size", JSON.str "medium")])
        ∧ lookupKV (contentContents h1t h2t iu ipr ig igat al) "header2"
          = some (JSON.str (pyReplace (pyReplace (pyReplace (pyReplace s "<b>" "")
              "</b>" "") "<i>" "") "</i>" ""))) := by
  refine ⟨rfl, rfl, ?_⟩
  intro s hs hne
  subst hs
  constructor
  · unfold contentContents
    simp only [List.append_assoc]
    refine (lookupKV_append_of_none _ _ _ (by rfl)).trans ?_
    simp only [header2Entry]
    rw [if_neg hne]
    rfl
  · unfold contentContents
    simp only [List.append_assoc]
    refine (lookupKV_append_of_none _ _ _ (by rfl)).trans ?_
    simp only [header2Entry]
    rw [if_neg hne]
    rfl

/-- C9 witness: a concrete call with bold and italic tags in both headers. -/
theorem content_card_dual_header_repr_witness :
    ((some "W<i>o</i>w" : Option String) = some "W<i>o</i>w" ∧ "W<i>o</i>w" ≠ "")
    ∧ lookupKV (contentContents "He<b>y</b>" (some "W<i>o</i>w") none none none none
        "center center") "_header1"
      = some (JSON.obj [("text", JSON.str "He<b>y</b>"), ("visibility", JSON.bool true),
          ("size", JSON.str "medium")])
    ∧ lookupKV (contentContents "He<b>y</b>" (some "W<i>o</i>w") none none none none
        "center center") "header1" = some (JSON.str "Hey")
    ∧ lookupKV (contentContents "He<b>y</b>" (some "W<i>o</i>w") none none none none
        "center center") "_header2"
      = some (JSON.obj [("text", JSON.str "W<i>o</i>w"), ("visibility", JSON.bool true),
          ("size", JSON.str "medium")])
    ∧ lookupKV (contentContents "He<b>y</b>" (some "W<i>o</i>w") none none none none
        "center center") "header2" = some (JSON.str "Wow") := by
  have h := content_card_dual_header_repr "He<b>y</b>" (some "W<i>o</i>w")
    none none none none "center center"
  have h2 := h.2.2 "W<i>o</i>w" rfl (by decide)
  exact ⟨⟨rfl, by decide⟩, h.1, h.2.1.trans rfl, h2.1, h2.2.trans rfl⟩

/-- C1: when a contents partial update is given and the GET of the current
card succeeds with a card object carrying no error key and an object under
"contents", update_card issues exactly one GET and one PUT, and the contents
object of that single PUT is the shallow merge of the fetched contents with
the caller's partial: caller keys win, keys only on the server side keep
their value, keys only in the partial are added. -/
theorem update_card_contents_shallow_merge (env : Env) (card_id : String)
    (c fc cr : List (String × JSON)) (im : Option Bool) (so : Option Int)
    (ia : Option Bool) (ct : Option String) (st : Nat) (txt : String)
    (hget : env "GET" ("/api/card/" ++ card_id) none
      = HttpOutcome.response st txt (JSON.obj cr))
    (h2xx : 200 ≤ st ∧ st < 300)
    (hnoerr : cr.any (fun p => p.1 == "error") = false)
    (hcontents : lookupKV cr "contents" = some (JSON.obj fc))
    (hnodup : (c.map Prod.fst).Nodup) :
    update_card env card_id (some c) im so ia ct
      = some ((make_api_request env "PUT" ("/api/card/" ++ card_id)
            (some (JSON.obj (("contents", JSON.obj (dictMerge fc c))
              :: updateOptFields im so ia ct)))).1,
          [⟨"GET", "/api/card/" ++ card_id, none⟩,
           ⟨"PUT", "/api/card/" ++ card_id,
            some (JSON.obj (("contents", JSON.obj (dictMerge fc c))
              :: updateOptFields im so ia ct))⟩])
    ∧ (∀ k v, lookupKV c k = some v → lookupKV (dictMerge fc c) k = some v)
    ∧ (∀ k, lookupKV c k = none → lookupKV (dictMerge fc c) k = lookupKV fc k) := by
  have hfetch : make_api_request env "GET" ("/api/card/" ++ card_id) none
      = (JSON.obj cr, [⟨"GET", "/api/card/" ++ card_id, none⟩]) := by
    show (handleOutcome (env "GET" ("/api/card/" ++ card_id) none), _) = _
    rw [hget]
    simp only [handleOutcome]
    rw [if_pos h2xx]
  refine ⟨?_, fun k v hk => lookupKV_dictMerge_of_some fc c k v hnodup hk,
    fun k hk => lookupKV_dictMerge_of_none fc c k hk⟩
  simp only [update_card]
  rw [hfetch]
  simp only [hnoerr, Bool.false_eq_true, if_false, hcontents, Option.getD_some]
  rfl

/-- C4: when a contents partial update is given but the GET of the current
card comes back as an error value, update_card returns the wrapped fetch
error at once and its request log holds only that one GET — no PUT is ever
issued. -/
theorem update_card_aborts_on_fetch_error (env : Env) (card_id : String)
    (c cr : List (String × JSON)) (im : Option Bool) (so : Option Int)
    (ia : Option Bool) (ct : Option String) (msg : String)
    (hfetch : (make_api_request env "GET" ("/api/card/" ++ card_id) none).1
      = JSON.obj cr)
    (herr : lookupKV cr "error" = some (JSON.str msg)) :
    update_card env card_id (some c) im so ia ct
      = some (JSON.obj [("error",
            JSON.str ("Failed to fetch card for update: " ++ msg))],
          [⟨"GET", "/api/card/" ++ card_id, none⟩]) := by
  have hany := List_any_of_lookupKV cr "error" (JSON.str msg) herr
  simp only [update_card]
  rw [hfetch]
  simp only [hany, if_true, herr]
  rfl

/-- C1 witness: the fetched contents map a to 1 and b to 2, the partial maps
b to 3 and c to 4, and the single PUT carries the merged a 1, b 3, c 4. -/
theorem update_card_contents_shallow_merge_witness :
    (envCard "GET" "/api/card/k1" none
      = HttpOutcome.response 200 "" (JSON.obj [("id", JSON.str "k1"),
          ("contents", JSON.obj [("a", JSON.num 1), ("b", JSON.num 2)])]))
    ∧ (200 ≤ 200 ∧ 200 < 300)
    ∧ update_card envCard "k1" (some [("b", JSON.num 3), ("c", JSON.num 4)])
        none none none none
      = some (JSON.obj [("updated", JSON.bool true)],
          [⟨"GET", "/api/card/k1", none⟩,
           ⟨"PUT", "/api/card/k1", some (JSON.obj [("contents",
              JSON.obj [("a", JSON.num 1), ("b", JSON.num 3), ("c", JSON.num 4)])])⟩]) := by
  have h := update_card_contents_shallow_merge envCard "k1"
    [("b", JSON.num 3), ("c", JSON.num 4)]
    [("a", JSON.num 1), ("b", JSON.num 2)]
    [("id", JSON.str "k1"), ("contents", JSON.obj [("a", JSON.num 1), ("b", JSON.num 2)])]
    none none none none 200 "" rfl (by decide) rfl rfl (by decide)
  exact ⟨rfl, by decide, h.1.trans rfl⟩

/-- C4 witness: a 404 on the GET makes update_card return the wrapped fetch
error with a single GET in the log. -/
theorem update_card_aborts_on_fetch_error_witness :
    ((make_api_request env404 "GET" "/api/card/k1" none).1
      = JSON.obj [("error", JSON.str "HTTP 404: Not Found")])
    ∧ update_card env404 "k1" (some [("b", JSON.num 3)]) none none none none
      = some (JSON.obj [("error",
            JSON.str "Failed to fetch card for update: HTTP 404: Not Found")],
          [⟨"GET", "/api/card/k1", none⟩]) := by
  have h := update_card_aborts_on_fetch_error env404 "k1" [("b", JSON.num 3)]
    [("error", JSON.str "HTTP 404: Not Found")] none none none none
    "HTTP 404: Not Found" rfl rfl
  exact ⟨rfl, h⟩

/-- C5: generate_image_from_text requests size 1024x1024 for square,
1024x1536 for portrait, 1536x1024 for landscape, 1024x1024 when the aspect
ratio is omitted, and silently falls back to 1024x1024 on any unrecognized
aspect ratio instead of producing an error. -/
theorem generate_image_from_text_size_mapping (prompt title : String) (ar : String)
    (hn1 : pyLower ar ≠ "square") (hn2 : pyLower ar ≠ "portrait")
    (hn3 : pyLower ar ≠ "landscape") :
    generate_image_from_text prompt title (some "square") none
      = Except.ok (pyLower (pyReplace title " " "_"),
          providerImageData prompt "1024x1024" "png")
    ∧ generate_image_from_text prompt title (some "portrait") none
      = Except.ok (pyLower (pyReplace title " " "_"),
          providerImageData prompt "1024x1536" "png")
    ∧ generate_image_from_text prompt title (some "landscape") none
      = Except.ok (pyLower (pyReplace title " " "_"),
          providerImageData prompt "1536x1024" "png")
    ∧ generate_image_from_text prompt title none none
      = Except.ok (pyLower (pyReplace title " " "_"),
          providerImageData prompt "1024x1024" "png")
    ∧ generate_image_from_text prompt title (some ar) none
      = Except.ok (pyLower (pyReplace title " " "_"),
          providerImageData prompt "1024x1024" "png") := by
  refine ⟨rfl, rfl, rfl, rfl, ?_⟩
  simp only [generate_image_from_text]
  rw [if_neg hn1, if_neg hn2, if_neg hn3, if_neg (by simp)]
  rfl

/-- C5 witness: portrait maps to 1024x1536 and the unrecognized "bogus"
falls back to 1024x1024 without an error. -/
theorem generate_image_from_text_size_mapping_witness :
    (pyLower "bogus" ≠ "square" ∧ pyLower "bogus" ≠ "portrait"
      ∧ pyLower "bogus" ≠ "landscape")
    ∧ generate_image_from_text "a cat" "My Pic" (some "portrait") none
      = Except.ok ("my_pic", providerImageData "a cat" "1024x1536" "png")
    ∧ generate_image_from_text "a cat" "My Pic" (some "bogus") none
      = Except.ok ("my_pic", providerImageData "a cat" "1024x1024" "png") := by
  have h := generate_image_from_text_size_mapping "a cat" "My Pic" "bogus"
    (by decide) (by decide) (by decide)
  exact ⟨⟨by decide, by decide, by decide⟩, h.2.1.trans rfl, h.2.2.2.2.trans rfl⟩

/-- C7: generate_background_image_for_audio takes only a prompt and a title,
and its provider request always carries the portrait size 1024x1536. -/
theorem generate_background_image_always_portrait (prompt title : String) :
    generate_background_image_for_audio prompt title
      = Except.ok (pyLower (pyReplace title " " "_"),
          providerImageData prompt "1024x1536" "png")
    ∧ lookupKV (providerImageData prompt "1024x1536" "png") "size"
      = some (JSON.str "1024x1536") := ⟨rfl, rfl⟩
